import Mathlib

/-!
Verification development for the chartmuseum core: the object cache, the
repository index builder, the regeneration coordinator (single-flight sync
with fan-out delivery) and the server constructor `NewServer`
(src/pkg/chartmuseum/server.go).

The repository snapshot contains only `pkg/chartmuseum/server.go`; the
`repo` package (index building) and the sync machinery
(`syncRepositoryIndex`, `fetchedObjects`, `indexRegeneration`) are absent
from the sources, so those parts are modelled from the specification
(spec.md sections 4.1-4.4), while the `Server` / `ServerOptions` data model
and the `NewServer` control flow are embedded from `server.go` directly.
-/

namespace ChartMuseum

/-! ### Character-list utilities (model of the string handling in the index
builder; implemented over `List Char` so everything kernel-evaluates) -/

/-- Split a character list at every occurrence of `sep` (like Go's
`strings.Split`): `splitOnChar '-' "a-b"` is `["a", "b"]`. -/
def splitOnChar (sep : Char) : List Char → List (List Char)
  | [] => [[]]
  | c :: rest =>
      let r := splitOnChar sep rest
      if c = sep then [] :: r
      else
        match r with
        | [] => [[c]]
        | h :: t => (c :: h) :: t

/-- Join character-list segments with `'-'` (inverse of `splitOnChar '-'`). -/
def joinDash : List (List Char) → List Char
  | [] => []
  | [x] => x
  | x :: xs => x ++ '-' :: joinDash xs

/-- Parse a nonempty all-digit character list as a natural number. -/
def digitsToNat : List Char → Option Nat
  | [] => none
  | cs =>
      if cs.all Char.isDigit then
        some (cs.foldl (fun n c => 10 * n + (c.toNat - 48)) 0)
      else none

/-! ### Lexicographic order on `List Nat` (the sort key of the semantic
version comparison used by the index builder) -/

/-- Lexicographic less-or-equal on lists of naturals; a proper prefix sorts
before its extensions. -/
def keyLE : List Nat → List Nat → Bool
  | [], _ => true
  | _ :: _, [] => false
  | a :: as, b :: bs =>
      if a < b then true
      else if b < a then false
      else keyLE as bs

/-! ### Semantic versions -/

/-- A parsed semantic version `major.minor.patch[-pre]`; `pre` is empty for
a release version. -/
structure Semver where
  major : Nat
  minor : Nat
  patch : Nat
  pre : String
deriving DecidableEq

/-- Modelled from the spec: parse a version string `major.minor.patch` with
an optional `-pre` suffix; the three numeric components are mandatory
decimal numerals (spec 4.2: "numeric major.minor.patch precedence"). -/
def parseSemver (l : List Char) : Option Semver :=
  match splitOnChar '-' l with
  | [] => none
  | core :: rest =>
      let pre := joinDash rest
      if rest ≠ [] ∧ pre = [] then none
      else
        match splitOnChar '.' core with
        | [a, b, c] =>
            match digitsToNat a, digitsToNat b, digitsToNat c with
            | some x, some y, some z => some ⟨x, y, z, ⟨pre⟩⟩
            | _, _, _ => none
        | _ => none

/-- Try every hyphen split point of a `.tgz` base name, earliest first: the
segments accumulated in `acc` form the chart name, the remainder must parse
as a semantic version. -/
def findSplit : List (List Char) → List (List Char) → Option (String × String × Semver)
  | _, [] => none
  | acc, p :: rest =>
      if acc = [] then findSplit [p] rest
      else
        match parseSemver (joinDash (p :: rest)) with
        | some v => some (⟨joinDash acc⟩, ⟨joinDash (p :: rest)⟩, v)
        | none => findSplit (acc ++ [p]) rest

/-- Modelled from the spec: recognize a storage path as a package artifact
(`<name>-<version>.tgz`) and extract its chart name and semantic version
(spec 4.2: "For each StorageObject recognized as a package artifact,
extracts or derives \x7bname, version, digest\x7d"). -/
def chartNameVersion (path : String) : Option (String × String × Semver) :=
  let cs := path.data
  if 4 ≤ cs.length ∧ cs.drop (cs.length - 4) = ['.', 't', 'g', 'z'] then
    findSplit [] (splitOnChar '-' (cs.take (cs.length - 4)))
  else none

/-- The sort key of a semantic version: the three numeric components, a
release flag (pre-release sorts before the corresponding release), then the
pre-release bytes. -/
def semverKey (v : Semver) : List Nat :=
  v.major :: v.minor :: v.patch ::
    (if v.pre.data = [] then 1 else 0) :: v.pre.data.map Char.toNat

/-- Spec-facing semantic-version comparison, non-strict and descending-
friendly: `semverGE a b` holds when `a`'s version is at least `b`'s under
numeric major.minor.patch precedence with pre-releases before releases.
The spec leaves the order among two pre-releases of the same numeric
version unspecified; the model compares their byte sequences. -/
def preGE (p q : String) : Prop :=
  if p.data = [] then True
  else if q.data = [] then False
  else keyLE (q.data.map Char.toNat) (p.data.map Char.toNat) = true

def semverGE (a b : Semver) : Prop :=
  b.major < a.major ∨ (a.major = b.major ∧
    (b.minor < a.minor ∨ (a.minor = b.minor ∧
      (b.patch < a.patch ∨ (a.patch = b.patch ∧ preGE a.pre b.pre)))))

/-! ### Data model: storage objects, index entries, repository index
(spec section 3; `storage.Object` and `repo.Index` are consumed by
`server.go` but their package sources are not in the snapshot, so they are
modelled from the spec's data model) -/

/-- Modelled from the spec: one artifact in the object store,
\x7bpath, size, last-modified timestamp, content identifier/etag\x7d. -/
structure StorageObject where
  path : String
  size : Nat
  lastModified : Nat
  digest : String
deriving DecidableEq

/-- Modelled from the spec: parsed metadata for one package version
\x7bname, version, content digest, download URL(s), creation time\x7d. -/
structure ChartVersionEntry where
  name : String
  version : String
  semver : Semver
  digest : String
  urls : List String
  created : Nat
deriving DecidableEq

/-- Modelled from the spec: mapping from package name to its entries
(ordered by version, descending), plus a generation timestamp and a fixed
format/API version tag; `repo.NewIndex(chartURL)` stores the configured
chart URL used to build download links. -/
structure Index where
  apiVersion : String
  generated : Nat
  chartURL : String
  entries : List (String × List ChartVersionEntry)
deriving DecidableEq

/-- `repo.NewIndex(chartURL)`: the fresh empty index built from the
configured chart URL (used at server construction, server.go line 88). -/
def newIndex (chartURL : String) : Index :=
  { apiVersion := "v1", generated := 0, chartURL := chartURL, entries := [] }

/-- Descending order used to sort a name's entries: `entryBefore a b` when
`a`'s version key is at least `b`'s. -/
def entryBefore (a b : ChartVersionEntry) : Prop :=
  keyLE (semverKey b.semver) (semverKey a.semver) = true

instance : DecidableRel entryBefore := fun _ _ =>
  inferInstanceAs (Decidable (_ = true))

/-! ### Repository index builder (spec section 4.2; `repo` package not in
the snapshot, modelled from the spec) -/

/-- The index entry derived from one storage object, or `none` when the
object is not recognizable as a package artifact. The download URL is the
base URL plus the object path. -/
def objEntry (baseURL : String) (o : StorageObject) : Option ChartVersionEntry :=
  match chartNameVersion o.path with
  | none => none
  | some nv =>
      some { name := nv.1, version := nv.2.1, semver := nv.2.2,
             digest := o.digest, urls := [baseURL ++ "/" ++ o.path],
             created := o.lastModified }

/-- One pass over the object set: parsable objects yield entries (in input
order), each malformed object is skipped and its path recorded as a
warning. -/
def scanObjects (baseURL : String) : List StorageObject → List ChartVersionEntry × List String
  | [] => ([], [])
  | o :: rest =>
      let r := scanObjects baseURL rest
      match objEntry baseURL o with
      | some e => (e :: r.1, r.2)
      | none => (r.1, o.path :: r.2)

/-- Append an entry to its name's group, keeping first-occurrence order of
names. -/
def insertGroup (e : ChartVersionEntry) :
    List (String × List ChartVersionEntry) → List (String × List ChartVersionEntry)
  | [] => [(e.name, [e])]
  | g :: rest =>
      if g.1 = e.name then (g.1, g.2 ++ [e]) :: rest
      else g :: insertGroup e rest

/-- Group entries by chart name. -/
def groupEntries : List ChartVersionEntry → List (String × List ChartVersionEntry)
  | [] => []
  | e :: rest => insertGroup e (groupEntries rest)

/-- The result of one index build: the index and the warnings recorded for
skipped objects. -/
structure BuildResult where
  index : Index
  warnings : List String
deriving DecidableEq

/-- Modelled from the spec: `BuildIndex(objectSet, baseURL)` (spec 4.2) —
derives an entry per recognized artifact, groups by name, orders each
name's entries by version descending, skips malformed objects with a
warning, and stamps the generation timestamp `now` and the fixed API
version. -/
def buildIndex (objs : List StorageObject) (baseURL : String) (now : Nat) : BuildResult :=
  let s := scanObjects baseURL objs
  { index :=
      { apiVersion := "v1", generated := now, chartURL := baseURL,
        entries := (groupEntries s.1).map
          (fun g => (g.1, List.insertionSort entryBefore g.2)) },
    warnings := s.2 }

/-- Failure taxonomy of a sync attempt (spec section 7). -/
inductive SyncError where
  | storageUnavailable
  | permissionDenied
  | malformedListing
  | indexBuildFailed
deriving DecidableEq

/-- Modelled from the spec: a build fed by an upstream listing result; a
listing error is fatal to the build and propagated, not masked. -/
def buildIndexFromListing (listing : Except SyncError (List StorageObject))
    (baseURL : String) (now : Nat) : Except SyncError BuildResult :=
  match listing with
  | .error e => .error e
  | .ok objs => .ok (buildIndex objs baseURL now)

/-! ### Server data model and regeneration coordinator

Embeds the `Server` struct of src/pkg/chartmuseum/server.go (lines 24-41).
The struct owns a single `regenerationLock`, a single `fetchedObjectsLock`,
single server-wide channel lists `fetchedObjectsChans` /
`regeneratedIndexesChans`, one `RepositoryIndex` and one `StorageCache`:
none of this state is indexed by tenant. The lock/channel machinery is
modelled as an in-flight marker, a waiter count and a delivery log; the
sync algorithm itself (`syncRepositoryIndex` and its helpers are not in
the snapshot) is modelled from spec sections 4.1 and 4.3: the leader
issues the one backend listing, on listing success the object cache is
replaced wholesale, then the index is rebuilt and atomically published,
and the one result is fanned out to every waiter of the attempt. The
`Logger`, `Router` and `StorageBackend` fields are external collaborators
(out of scope per the spec) and are not part of the state. -/

/-- The outcome of one in-flight sync attempt, as observed when the leader
finishes: the listing succeeded (and the build, which the modelled
`buildIndex` always completes, runs on `objs`), the listing itself failed,
or the listing succeeded and the subsequent structural index build failed
(spec section 7, `IndexBuildFailed`). -/
inductive SyncOutcome where
  | success (objs : List StorageObject)
  | listingFailed (e : SyncError)
  | buildFailed (objs : List StorageObject) (e : SyncError)
deriving DecidableEq

/-- `SyncResult` (spec section 3): index or error, delivered once to every
waiter of the attempt. -/
inductive SyncResult where
  | published (index : Index)
  | failed (e : SyncError)
deriving DecidableEq

/-- The `Server` struct of server.go (lines 24-41), with the lock/channel
bookkeeping modelled as explicit coordinator state: `inFlight` is the
single server-wide in-flight marker, `waiters` the number of delivery
slots registered for the current attempt (leader included),
`listingCalls` counts backend listings issued, and `delivered` logs the
fan-out of the most recently completed attempt. `repositoryIndex` is an
`Option` because the Go field is a pointer (`nil` on the zero value). -/
structure ServerState where
  repositoryIndex : Option Index
  storageCache : List StorageObject
  allowOverwrite : Bool
  multiTenancyEnabled : Bool
  anonymousGet : Bool
  tlsCert : String
  tlsKey : String
  chartPostFormFieldName : String
  provPostFormFieldName : String
  inFlight : Bool
  waiters : Nat
  listingCalls : Nat
  delivered : List SyncResult
deriving DecidableEq

/-- The base URL used when rebuilding the index: the chart URL stored in
the published index (set from `options.ChartURL` at construction). -/
def indexChartURL (s : ServerState) : String :=
  match s.repositoryIndex with
  | some i => i.chartURL
  | none => ""

/-- Events driving the coordinator: a trigger arrives for a tenant (the
tenant key is derived from the request path under multi-tenancy), or the
in-flight attempt completes with an outcome at time `now`. -/
inductive Ev where
  | trigger (tenant : String)
  | complete (outcome : SyncOutcome) (now : Nat)

/-- One coordinator transition, modelled from spec sections 4.1 and 4.3 on
the single server-wide state of server.go: a trigger while Idle makes the
caller the leader (one backend listing is issued); a trigger while a sync
is in flight registers a follower delivery slot and issues no listing; on
completion the one result is delivered to every registered waiter, the
object cache is replaced wholesale exactly when the listing succeeded,
the index is published only on full success, and the in-flight marker is
cleared. -/
def step (s : ServerState) : Ev → ServerState
  | .trigger _ =>
      if s.inFlight then
        { s with waiters := s.waiters + 1 }
      else
        { s with inFlight := true, waiters := 1,
                 listingCalls := s.listingCalls + 1 }
  | .complete outcome now =>
      if s.inFlight then
        match outcome with
        | .success objs =>
            let idx := (buildIndex objs (indexChartURL s) now).index
            { s with storageCache := objs, repositoryIndex := some idx,
                     inFlight := false, waiters := 0,
                     delivered := List.replicate s.waiters (.published idx) }
        | .listingFailed e =>
            { s with inFlight := false, waiters := 0,
                     delivered := List.replicate s.waiters (.failed e) }
        | .buildFailed objs e =>
            { s with storageCache := objs, inFlight := false, waiters := 0,
                     delivered := List.replicate s.waiters (.failed e) }
      else s

/-- Run a sequence of events. -/
def steps (s : ServerState) (evs : List Ev) : ServerState :=
  evs.foldl step s

/-- The read interface (spec section 6): `GetPublishedIndex(tenant)`. The
`Server` struct has a single `RepositoryIndex` field, so the read does not
depend on the tenant; it is a plain field read (non-blocking). -/
def getPublishedIndex (s : ServerState) (_tenant : String) : Option Index :=
  s.repositoryIndex

/-- The `SyncResult` an attempt completed from state `s` delivers to each
of its waiters. -/
def syncResultOf (s : ServerState) (outcome : SyncOutcome) (now : Nat) : SyncResult :=
  match outcome with
  | .success objs => .published (buildIndex objs (indexChartURL s) now).index
  | .listingFailed e => .failed e
  | .buildFailed _ e => .failed e

/-! ### Server construction (`NewServer`, server.go lines 77-111) -/

/-- `ServerOptions` (server.go lines 44-60); the `StorageBackend` field is
the external store interface and is not part of the value state. -/
structure ServerOptions where
  logJSON : Bool
  debug : Bool
  enableAPI : Bool
  allowOverwrite : Bool
  enableMetrics : Bool
  enableMultiTenancy : Bool
  anonymousGet : Bool
  chartURL : String
  tlsCert : String
  tlsKey : String
  username : String
  password : String
  chartPostFormFieldName : String
  provPostFormFieldName : String

/-- The `Server` literal built at server.go lines 85-100: a fresh empty
index from the configured chart URL, an empty storage cache, fresh idle
lock/coordinator state. -/
def serverInit (o : ServerOptions) : ServerState :=
  { repositoryIndex := some (newIndex o.chartURL)
    storageCache := []
    allowOverwrite := o.allowOverwrite
    multiTenancyEnabled := o.enableMultiTenancy
    anonymousGet := o.anonymousGet
    tlsCert := o.tlsCert
    tlsKey := o.tlsKey
    chartPostFormFieldName := o.chartPostFormFieldName
    provPostFormFieldName := o.provPostFormFieldName
    inFlight := false
    waiters := 0
    listingCalls := 0
    delivered := [] }

/-- The value of `new(Server)` (server.go line 80): the Go zero value of
the struct — nil index pointer, nil cache, false flags, empty strings,
no coordinator state. -/
def zeroServer : ServerState :=
  { repositoryIndex := none
    storageCache := []
    allowOverwrite := false
    multiTenancyEnabled := false
    anonymousGet := false
    tlsCert := ""
    tlsKey := ""
    chartPostFormFieldName := ""
    provPostFormFieldName := ""
    inFlight := false
    waiters := 0
    listingCalls := 0
    delivered := [] }

/-- The error component of a sync attempt's outcome, as
`syncRepositoryIndex` returns it to its caller. -/
def syncErrOf : SyncOutcome → Option SyncError
  | .success _ => none
  | .listingFailed e => some e
  | .buildFailed _ e => some e

/-- `NewServer` (server.go lines 77-111). `loggerOk` is whether
`NewLogger` succeeded; on logger failure the function returns
`new(Server), nil` (line 80). Otherwise the server literal is built; when
multi-tenancy is enabled no priming sync runs and the error stays nil;
when disabled, one synchronous priming sync runs before the server is
returned (`syncRepositoryIndex`, line 108) — its environment-determined
outcome is `outcome` at time `now` — and its error is the returned
error. -/
def newServer (loggerOk : Bool) (o : ServerOptions) (outcome : SyncOutcome)
    (now : Nat) : ServerState × Option SyncError :=
  if loggerOk then
    let init := serverInit o
    if o.enableMultiTenancy then (init, none)
    else
      (step (step init (.trigger "")) (.complete outcome now), syncErrOf outcome)
  else (zeroServer, none)

/-! ### Supporting lemmas -/

theorem keyLE_total : ∀ a b : List Nat, keyLE a b = true ∨ keyLE b a = true := by
  intro a
  induction a with
  | nil => intro b; left; rfl
  | cons x xs ih =>
      intro b
      cases b with
      | nil => right; rfl
      | cons y ys =>
          by_cases hxy : x < y
          · left; simp [keyLE, hxy]
          · by_cases hyx : y < x
            · right; simp [keyLE, hyx]
            · have hxney : ¬ y < x := hyx
              rcases ih ys with h | h
              · left; simp [keyLE, hxy, hxney, h]
              · right; simp [keyLE, hxy, hxney, h]

theorem keyLE_trans :
    ∀ a b c : List Nat, keyLE a b = true → keyLE b c = true → keyLE a c = true := by
  intro a
  induction a with
  | nil => intro b c _ _; rfl
  | cons x xs ih =>
      intro b c hab hbc
      cases b with
      | nil => simp [keyLE] at hab
      | cons y ys =>
          cases c with
          | nil => simp [keyLE] at hbc
          | cons z zs =>
              simp only [keyLE] at hab hbc ⊢
              by_cases hxy : x < y <;> by_cases hyz : y < z <;>
                by_cases hxz : x < z <;>
                simp [hxy, hyz, hxz] at hab hbc ⊢ <;>
                first
                  | omega
                  | skip
              all_goals
                have hxeqy : x = y := by omega
                have hyeqz : y = z := by omega
                subst hxeqy
                simp_all
                exact ih ys zs hab hbc

instance : IsTotal ChartVersionEntry entryBefore :=
  ⟨fun a b => Or.symm (keyLE_total (semverKey a.semver) (semverKey b.semver))⟩

instance : IsTrans ChartVersionEntry entryBefore :=
  ⟨fun _ _ _ hab hbc => keyLE_trans _ _ _ hbc hab⟩

theorem keyLE_imp_semverGE (a b : Semver)
    (h : keyLE (semverKey b) (semverKey a) = true) : semverGE a b := by
  simp only [semverKey, keyLE] at h
  by_cases h1 : b.major < a.major
  · exact Or.inl h1
  · right
    by_cases h1r : a.major < b.major
    · simp [h1, h1r] at h
    · refine ⟨by omega, ?_⟩
      simp only [h1, h1r, if_false] at h
      by_cases h2 : b.minor < a.minor
      · exact Or.inl h2
      · right
        by_cases h2r : a.minor < b.minor
        · simp [h2, h2r] at h
        · refine ⟨by omega, ?_⟩
          simp only [h2, h2r, if_false] at h
          by_cases h3 : b.patch < a.patch
          · exact Or.inl h3
          · right
            by_cases h3r : a.patch < b.patch
            · simp [h3, h3r] at h
            · refine ⟨by omega, ?_⟩
              simp only [h3, h3r, if_false] at h
              by_cases hbp : b.pre.data = []
              · simp [preGE, hbp]
                by_cases hap : a.pre.data = []
                · simp [hap]
                · simp [hbp, hap, keyLE] at h
              · by_cases hap : a.pre.data = []
                · simp [preGE, hap, hbp]
                · simp only [hbp, hap, if_neg, if_false] at h
                  simp [preGE, hap, hbp]
                  simpa [keyLE] using h

/-- Registering followers while a sync is in flight only grows the waiter
count: no field other than `waiters` changes, and no listing is issued. -/
theorem steps_triggers_inFlight (t : String) :
    ∀ (n : Nat) (s : ServerState), s.inFlight = true →
      steps s (List.replicate n (Ev.trigger t)) = { s with waiters := s.waiters + n } := by
  intro n
  induction n with
  | zero => intro s _; simp [steps]
  | succ n ih =>
      intro s h
      have hstep : step s (Ev.trigger t) = { s with waiters := s.waiters + 1 } := by
        simp [step, h]
      have : steps s (List.replicate (n + 1) (Ev.trigger t)) =
          steps { s with waiters := s.waiters + 1 } (List.replicate n (Ev.trigger t)) := by
        simp [steps, List.replicate_succ, hstep]
      rw [this, ih { s with waiters := s.waiters + 1 } h]
      simp [Nat.add_assoc, Nat.add_comm 1 n]

/-- The entries produced by a scan are exactly those of the parsable
objects: malformed objects contribute nothing to the entry list. -/
theorem scanObjects_entries (baseURL : String) :
    ∀ objs : List StorageObject,
      (scanObjects baseURL objs).1 =
        (scanObjects baseURL
          (objs.filter (fun o => (chartNameVersion o.path).isSome))).1 := by
  intro objs
  induction objs with
  | nil => rfl
  | cons o rest ih =>
      cases h : chartNameVersion o.path with
      | none => simp [scanObjects, objEntry, h, List.filter, ih]
      | some nv => simp [scanObjects, objEntry, h, List.filter, ih]

/-- The warnings produced by a scan are exactly the paths of the malformed
objects, in input order. -/
theorem scanObjects_warnings (baseURL : String) :
    ∀ objs : List StorageObject,
      (scanObjects baseURL objs).2 =
        (objs.filter (fun o => (chartNameVersion o.path).isNone)).map
          StorageObject.path := by
  intro objs
  induction objs with
  | nil => rfl
  | cons o rest ih =>
      cases h : chartNameVersion o.path with
      | none => simp [scanObjects, objEntry, h, List.filter, ih]
      | some nv => simp [scanObjects, objEntry, h, List.filter, ih]

/-! ### Concrete fixtures for witnesses and counterexamples -/

/-- A concrete option set with multi-tenancy disabled. -/
def demoOptions : ServerOptions :=
  { logJSON := false, debug := false, enableAPI := true, allowOverwrite := false,
    enableMetrics := false, enableMultiTenancy := false, anonymousGet := false,
    chartURL := "https://charts.example.com", tlsCert := "", tlsKey := "",
    username := "", password := "", chartPostFormFieldName := "chart",
    provPostFormFieldName := "prov" }

/-- The same options with multi-tenancy enabled. -/
def demoMultiTenantOptions : ServerOptions :=
  { demoOptions with enableMultiTenancy := true }

/-- A concrete chart archive object. -/
def objFoo : StorageObject :=
  { path := "foo-1.0.0.tgz", size := 4, lastModified := 100, digest := "sha256:1" }

/-- A concrete object set: two versions of `foo` (listed ascending) and one
object that is not a chart archive. -/
def demoObjects : List StorageObject :=
  [objFoo,
   { path := "foo-2.0.0.tgz", size := 5, lastModified := 101, digest := "sha256:2" },
   { path := "notachart.txt", size := 1, lastModified := 5, digest := "x" }]

/-! ### Claim theorems -/

/-- C4: When multi-tenancy is disabled, `NewServer` performs exactly one
synchronous sync of the repository index at startup (priming the cache)
before the server begins serving traffic — exactly one backend listing is
issued and the sync has completed (no sync is left in flight) by the time
the server value is returned — and the error returned by `NewServer` is
the error of that priming sync. -/
theorem newServer_single_tenant_primes_cache (o : ServerOptions)
    (outcome : SyncOutcome) (now : Nat) (h : o.enableMultiTenancy = false) :
    (newServer true o outcome now).2 = syncErrOf outcome ∧
    (newServer true o outcome now).1.listingCalls = 1 ∧
    (newServer true o outcome now).1.inFlight = false ∧
    (newServer true o outcome now).1.delivered =
      [syncResultOf (serverInit o) outcome now] := by
  cases outcome <;>
    simp [newServer, h, serverInit, step, syncErrOf, syncResultOf, indexChartURL]

theorem newServer_single_tenant_primes_cache_witness :
    (newServer true demoOptions (SyncOutcome.success demoObjects) 42).2 =
      syncErrOf (SyncOutcome.success demoObjects) ∧
    (newServer true demoOptions (SyncOutcome.success demoObjects) 42).1.listingCalls = 1 ∧
    (newServer true demoOptions (SyncOutcome.success demoObjects) 42).1.inFlight = false ∧
    (newServer true demoOptions (SyncOutcome.success demoObjects) 42).1.delivered =
      [syncResultOf (serverInit demoOptions) (SyncOutcome.success demoObjects) 42] :=
  newServer_single_tenant_primes_cache demoOptions (SyncOutcome.success demoObjects) 42 rfl

/-- C5: A server constructed by `NewServer` (server.go lines 85-100) has
its `RepositoryIndex` set to a fresh empty index built from the configured
chart URL and its `StorageCache` set to the empty object list, and before
the first successful sync `GetPublishedIndex` (a plain field read of the
published pointer, hence non-blocking) returns that empty index for every
tenant. -/
theorem server_initial_index_empty (o : ServerOptions) (t : String) :
    (serverInit o).repositoryIndex = some (newIndex o.chartURL) ∧
    (serverInit o).storageCache = [] ∧
    getPublishedIndex (serverInit o) t = some (newIndex o.chartURL) ∧
    (newIndex o.chartURL).entries = [] ∧
    (newIndex o.chartURL).chartURL = o.chartURL := by
  simp [serverInit, getPublishedIndex, newIndex]

/-- C7: `BuildIndex` is deterministic: two runs on the identical object
set and base URL give indexes with identical entries, API version, chart
URL and warnings; only the generation timestamp follows the build time. -/
theorem buildIndex_deterministic (objs : List StorageObject) (baseURL : String)
    (t1 t2 : Nat) :
    (buildIndex objs baseURL t1).index.entries = (buildIndex objs baseURL t2).index.entries ∧
    (buildIndex objs baseURL t1).index.apiVersion =
      (buildIndex objs baseURL t2).index.apiVersion ∧
    (buildIndex objs baseURL t1).index.chartURL =
      (buildIndex objs baseURL t2).index.chartURL ∧
    (buildIndex objs baseURL t1).warnings = (buildIndex objs baseURL t2).warnings ∧
    (buildIndex objs baseURL t1).index.generated = t1 :=
  ⟨rfl, rfl, rfl, rfl, rfl⟩

/-- C9: If the logger construction inside `NewServer` fails, `NewServer`
returns a fresh zero-valued `Server` (nil index pointer, nil cache, zero
fields) together with a nil error (server.go line 80): the logger failure
is not observable through the returned error. -/
theorem newServer_swallows_logger_failure (o : ServerOptions)
    (outcome : SyncOutcome) (now : Nat) :
    newServer false o outcome now = (zeroServer, none) ∧
    zeroServer.repositoryIndex = none ∧
    zeroServer.storageCache = [] ∧
    zeroServer.listingCalls = 0 := by
  simp [newServer, zeroServer]

/-- C10: When multi-tenancy is enabled and logger construction succeeds,
`NewServer` performs no priming sync at all — the returned server is
exactly the freshly built literal, with zero backend listings issued and
the index still the fresh empty one — and the returned error is nil
regardless of the priming outcome the storage backend would have
produced. -/
theorem newServer_multitenant_no_priming (o : ServerOptions)
    (outcome : SyncOutcome) (now : Nat) (h : o.enableMultiTenancy = true) :
    newServer true o outcome now = (serverInit o, none) ∧
    (serverInit o).listingCalls = 0 ∧
    (serverInit o).repositoryIndex = some (newIndex o.chartURL) ∧
    (serverInit o).inFlight = false := by
  simp [newServer, h, serverInit]

theorem newServer_multitenant_no_priming_witness :
    newServer true demoMultiTenantOptions (SyncOutcome.listingFailed SyncError.storageUnavailable) 42 =
      (serverInit demoMultiTenantOptions, none) ∧
    (serverInit demoMultiTenantOptions).listingCalls = 0 ∧
    (serverInit demoMultiTenantOptions).repositoryIndex =
      some (newIndex demoMultiTenantOptions.chartURL) ∧
    (serverInit demoMultiTenantOptions).inFlight = false :=
  newServer_multitenant_no_priming demoMultiTenantOptions
    (SyncOutcome.listingFailed SyncError.storageUnavailable) 42 rfl

/-- C8: During `BuildIndex`, every malformed object in the input set is
skipped with a recorded warning and does not abort the build — the build
of any listing always completes, its entries are exactly those of the
parsable objects, and its warnings are exactly the paths of the malformed
ones — whereas a failure to obtain the object set at all makes the whole
build fail with that error propagated unchanged. -/
theorem buildIndex_skips_malformed_propagates_listing_error
    (objs : List StorageObject) (baseURL : String) (now : Nat) (e : SyncError) :
    buildIndexFromListing (Except.error e) baseURL now = Except.error e ∧
    buildIndexFromListing (Except.ok objs) baseURL now =
      Except.ok (buildIndex objs baseURL now) ∧
    (buildIndex objs baseURL now).index.entries =
      (buildIndex (objs.filter (fun o => (chartNameVersion o.path).isSome))
        baseURL now).index.entries ∧
    (buildIndex objs baseURL now).warnings =
      (objs.filter (fun o => (chartNameVersion o.path).isNone)).map
        StorageObject.path := by
  refine ⟨rfl, rfl, ?_, ?_⟩
  · simp only [buildIndex]
    rw [scanObjects_entries baseURL objs]
  · simp only [buildIndex]
    rw [scanObjects_warnings baseURL objs]

/-- C6: In every index produced by `BuildIndex`, the entries under each
package name are ordered by version descending under semantic-version
comparison (numeric major.minor.patch precedence, pre-release sorting
before the corresponding release): the version sequence of each name is
non-increasing under `semverGE`. -/
theorem buildIndex_entries_sorted_descending (objs : List StorageObject)
    (baseURL : String) (now : Nat) :
    ∀ p ∈ (buildIndex objs baseURL now).index.entries,
      List.Sorted (fun a b => semverGE a.semver b.semver) p.2 := by
  intro p hp
  simp only [buildIndex, List.mem_map] at hp
  obtain ⟨g, hg, rfl⟩ := hp
  have hs := List.sorted_insertionSort entryBefore g.2
  exact hs.imp (fun hab => keyLE_imp_semverGE _ _ hab)

theorem buildIndex_entries_sorted_descending_witness :
    List.Sorted (fun a b => semverGE a.semver b.semver)
      ((buildIndex demoObjects "https://charts.example.com" 42).index.entries.headD
        ("", [])).2 :=
  buildIndex_entries_sorted_descending demoObjects "https://charts.example.com" 42 _
    (by decide)

/-- The events of one coalesced burst: a leading trigger from Idle, `n`
further triggers arriving while the sync is in flight, then the completion
of the in-flight attempt. -/
def burstEvents (t : String) (n : Nat) (outcome : SyncOutcome) (now : Nat) : List Ev :=
  Ev.trigger t :: (List.replicate n (Ev.trigger t) ++ [Ev.complete outcome now])

/-- C1: For every tenant and every number of concurrent triggers arriving
while a sync is in flight, the storage backend listing is invoked exactly
once for the coalesced burst, and every caller of the burst (the leader
and the `n` followers) receives the identical `SyncResult`; the in-flight
marker is cleared at the end so a later trigger may lead a new sync. -/
theorem syncRepositoryIndex_single_flight (s : ServerState) (t : String) (n : Nat)
    (outcome : SyncOutcome) (now : Nat) (h : s.inFlight = false) :
    (steps s (burstEvents t n outcome now)).listingCalls = s.listingCalls + 1 ∧
    (steps s (burstEvents t n outcome now)).delivered =
      List.replicate (n + 1) (syncResultOf s outcome now) ∧
    (steps s (burstEvents t n outcome now)).inFlight = false := by
  have hlead : step s (Ev.trigger t) =
      { s with inFlight := true, waiters := 1, listingCalls := s.listingCalls + 1 } := by
    simp [step, h]
  have hsplit : steps s (burstEvents t n outcome now) =
      step (steps (step s (Ev.trigger t)) (List.replicate n (Ev.trigger t)))
        (Ev.complete outcome now) := by
    simp [burstEvents, steps, List.foldl_append]
  have hfollow :=
    steps_triggers_inFlight t n
      { s with inFlight := true, waiters := 1, listingCalls := s.listingCalls + 1 } rfl
  rw [hsplit, hlead, hfollow]
  cases outcome <;>
    simp [step, syncResultOf, indexChartURL, Nat.add_comm 1 n]

theorem syncRepositoryIndex_single_flight_witness :
    (steps (serverInit demoOptions)
      (burstEvents "org1" 2 (SyncOutcome.success demoObjects) 42)).listingCalls =
        (serverInit demoOptions).listingCalls + 1 ∧
    (steps (serverInit demoOptions)
      (burstEvents "org1" 2 (SyncOutcome.success demoObjects) 42)).delivered =
        List.replicate (2 + 1)
          (syncResultOf (serverInit demoOptions) (SyncOutcome.success demoObjects) 42) ∧
    (steps (serverInit demoOptions)
      (burstEvents "org1" 2 (SyncOutcome.success demoObjects) 42)).inFlight = false :=
  syncRepositoryIndex_single_flight (serverInit demoOptions) "org1" 2
    (SyncOutcome.success demoObjects) 42 rfl

/-- C2 counterexample: the `Server` struct owns one lock, one waiter list,
one cache and one published index for the whole server, so a sync
triggered for tenant `org1` replaces the cache and the published index
observed by tenant `org2`, and a trigger for `org2` arriving while
`org1`'s sync is in flight joins that sync (no independent listing is
issued for `org2`): per-tenant independence fails at this concrete
input. -/
theorem tenant_isolation_counterexample :
    getPublishedIndex
        (step (step (serverInit demoMultiTenantOptions) (Ev.trigger "org1"))
          (Ev.complete (SyncOutcome.success [objFoo]) 9)) "org2" ≠
      getPublishedIndex (serverInit demoMultiTenantOptions) "org2" ∧
    (step (step (serverInit demoMultiTenantOptions) (Ev.trigger "org1"))
        (Ev.complete (SyncOutcome.success [objFoo]) 9)).storageCache ≠
      (serverInit demoMultiTenantOptions).storageCache ∧
    (step (step (serverInit demoMultiTenantOptions) (Ev.trigger "org1"))
        (Ev.trigger "org2")).listingCalls =
      (step (serverInit demoMultiTenantOptions) (Ev.trigger "org1")).listingCalls ∧
    (step (step (serverInit demoMultiTenantOptions) (Ev.trigger "org1"))
        (Ev.trigger "org2")).waiters =
      (step (serverInit demoMultiTenantOptions) (Ev.trigger "org1")).waiters + 1 := by
  decide

/-- C2 amended: the server owns a single in-flight marker, waiter list,
object cache and published index shared by all tenants: reads of the
published index do not depend on the tenant, a trigger for any tenant
while a sync is in flight joins that sync as a follower without issuing a
backend listing, and a successfully completed sync installs the one new
index that every tenant subsequently observes. -/
theorem sync_state_shared_across_tenants (s : ServerState) (tA tB : String)
    (objs : List StorageObject) (now : Nat) (h : s.inFlight = true) :
    getPublishedIndex s tA = getPublishedIndex s tB ∧
    (step s (Ev.trigger tA)).listingCalls = s.listingCalls ∧
    (step s (Ev.trigger tA)).waiters = s.waiters + 1 ∧
    (step s (Ev.trigger tA)).inFlight = true ∧
    getPublishedIndex (step s (Ev.complete (SyncOutcome.success objs) now)) tB =
      some (buildIndex objs (indexChartURL s) now).index := by
  simp [step, h, getPublishedIndex]

theorem sync_state_shared_across_tenants_witness :
    getPublishedIndex (step (serverInit demoMultiTenantOptions) (Ev.trigger "org1")) "org1" =
      getPublishedIndex (step (serverInit demoMultiTenantOptions) (Ev.trigger "org1")) "org2" ∧
    (step (step (serverInit demoMultiTenantOptions) (Ev.trigger "org1"))
        (Ev.trigger "org1")).listingCalls =
      (step (serverInit demoMultiTenantOptions) (Ev.trigger "org1")).listingCalls ∧
    (step (step (serverInit demoMultiTenantOptions) (Ev.trigger "org1"))
        (Ev.trigger "org1")).waiters =
      (step (serverInit demoMultiTenantOptions) (Ev.trigger "org1")).waiters + 1 ∧
    (step (step (serverInit demoMultiTenantOptions) (Ev.trigger "org1"))
        (Ev.trigger "org1")).inFlight = true ∧
    getPublishedIndex
        (step (step (serverInit demoMultiTenantOptions) (Ev.trigger "org1"))
          (Ev.complete (SyncOutcome.success [objFoo]) 9)) "org2" =
      some (buildIndex [objFoo]
        (indexChartURL (step (serverInit demoMultiTenantOptions) (Ev.trigger "org1"))) 9).index :=
  sync_state_shared_across_tenants
    (step (serverInit demoMultiTenantOptions) (Ev.trigger "org1")) "org1" "org2"
    [objFoo] 9 rfl

/-- C3 counterexample: an attempt that fails at the index build stage,
after its backend listing succeeded, delivers the failure to its waiters
but leaves the object cache holding the newly listed set — the cache is
not "exactly as it was before the attempt" at this concrete input. -/
theorem failed_sync_cache_counterexample :
    (step (step (serverInit demoOptions) (Ev.trigger "org1"))
        (Ev.complete (SyncOutcome.buildFailed [objFoo] SyncError.indexBuildFailed) 9)).delivered =
      [SyncResult.failed SyncError.indexBuildFailed] ∧
    (step (step (serverInit demoOptions) (Ev.trigger "org1"))
        (Ev.complete (SyncOutcome.buildFailed [objFoo] SyncError.indexBuildFailed) 9)).storageCache ≠
      (serverInit demoOptions).storageCache := by
  decide

/-- C3 amended: for every failed sync attempt the published index is left
exactly as it was — `GetPublishedIndex` returns the same value it returned
before the attempt — and the error is delivered to every waiter of the
attempt; the `ObjectCache` is also left unchanged when the failure is at
the listing stage (backend unreachable, permission denied, malformed
listing), while after a successful listing followed by an index build
failure the cache holds the newly listed set (spec 4.1 replaces the cache
wholesale as soon as the listing succeeds). -/
theorem failed_sync_preserves_published_index (s : ServerState) (e : SyncError)
    (objs : List StorageObject) (now : Nat) (t : String) (h : s.inFlight = true) :
    (step s (Ev.complete (SyncOutcome.listingFailed e) now)).storageCache = s.storageCache ∧
    (step s (Ev.complete (SyncOutcome.listingFailed e) now)).repositoryIndex =
      s.repositoryIndex ∧
    (step s (Ev.complete (SyncOutcome.listingFailed e) now)).delivered =
      List.replicate s.waiters (SyncResult.failed e) ∧
    (step s (Ev.complete (SyncOutcome.buildFailed objs e) now)).repositoryIndex =
      s.repositoryIndex ∧
    getPublishedIndex (step s (Ev.complete (SyncOutcome.buildFailed objs e) now)) t =
      getPublishedIndex s t ∧
    (step s (Ev.complete (SyncOutcome.buildFailed objs e) now)).storageCache = objs ∧
    (step s (Ev.complete (SyncOutcome.buildFailed objs e) now)).delivered =
      List.replicate s.waiters (SyncResult.failed e) := by
  simp [step, h, getPublishedIndex]

theorem failed_sync_preserves_published_index_witness :
    (step (step (serverInit demoOptions) (Ev.trigger "org1"))
        (Ev.complete (SyncOutcome.listingFailed SyncError.storageUnavailable) 9)).storageCache =
      (step (serverInit demoOptions) (Ev.trigger "org1")).storageCache ∧
    (step (step (serverInit demoOptions) (Ev.trigger "org1"))
        (Ev.complete (SyncOutcome.listingFailed SyncError.storageUnavailable) 9)).repositoryIndex =
      (step (serverInit demoOptions) (Ev.trigger "org1")).repositoryIndex ∧
    (step (step (serverInit demoOptions) (Ev.trigger "org1"))
        (Ev.complete (SyncOutcome.listingFailed SyncError.storageUnavailable) 9)).delivered =
      List.replicate (step (serverInit demoOptions) (Ev.trigger "org1")).waiters
        (SyncResult.failed SyncError.storageUnavailable) ∧
    (step (step (serverInit demoOptions) (Ev.trigger "org1"))
        (Ev.complete (SyncOutcome.buildFailed [objFoo] SyncError.storageUnavailable) 9)).repositoryIndex =
      (step (serverInit demoOptions) (Ev.trigger "org1")).repositoryIndex ∧
    getPublishedIndex
        (step (step (serverInit demoOptions) (Ev.trigger "org1"))
          (Ev.complete (SyncOutcome.buildFailed [objFoo] SyncError.storageUnavailable) 9)) "t" =
      getPublishedIndex (step (serverInit demoOptions) (Ev.trigger "org1")) "t" ∧
    (step (step (serverInit demoOptions) (Ev.trigger "org1"))
        (Ev.complete (SyncOutcome.buildFailed [objFoo] SyncError.storageUnavailable) 9)).storageCache =
      [objFoo] ∧
    (step (step (serverInit demoOptions) (Ev.trigger "org1"))
        (Ev.complete (SyncOutcome.buildFailed [objFoo] SyncError.storageUnavailable) 9)).delivered =
      List.replicate (step (serverInit demoOptions) (Ev.trigger "org1")).waiters
        (SyncResult.failed SyncError.storageUnavailable) :=
  failed_sync_preserves_published_index
    (step (serverInit demoOptions) (Ev.trigger "org1")) SyncError.storageUnavailable
    [objFoo] 9 "t" rfl

end ChartMuseum
